import Mathlib

/-!
Verification of the SmartEAS emergency-alert backend.

This file shallowly embeds the two handlers the claims concern:
* `backend/src/handlers/weather-disaster-validator.ts` — multi-source
  validation of disaster events (confidence fusion, severity derivation,
  the validated-alert gate);
* `backend/src/handlers/ai-disaster-analyzer.ts` — keyword pre-filter,
  model-based classification, fallback analysis.

JavaScript numbers are modelled as rationals (`ℚ`); all the arithmetic the
claims touch (sums, means, `Math.min`, integer boosts) is exact in ℚ.
Network calls (geocoding, USGS/NOAA/... queries, the Bedrock model call)
are modelled as explicit parameters: an `Option` result for geocoding, an
arbitrary state transformer for the per-disaster-type source queries, and
an `Except`/`Option` value for the model response. Regex-based extractors
(`extractEntities`, `extractDetailedLocation`) are modelled as oracle
parameters where their internals do not matter to a claim; the boolean
checks the handlers perform on their outputs (substring tests) are
implemented for real.
-/

namespace SmartEAS

/-- JS `pattern.startsWith` on character lists: `startsWithList p l` is true
when `p` is an initial segment of `l`. -/
def startsWithList : List Char → List Char → Bool
  | [], _ => true
  | _ :: _, [] => false
  | p :: ps, c :: cs => p = c && startsWithList ps cs

/-- JS `text.includes(pattern)` on character lists. -/
def hasSubList : List Char → List Char → Bool
  | pat, [] => pat.isEmpty
  | pat, l@(_ :: cs) => startsWithList pat l || hasSubList pat cs

/-- JS `text.includes(pattern)` on strings. -/
def subMatch (pat s : String) : Bool :=
  hasSubList pat.data s.data

/-- JS `text.toLowerCase()`, as a structural map over the characters. -/
def jsToLower (s : String) : String :=
  ⟨s.data.map Char.toLower⟩

/-- JS `Math.min` on two numbers (for non-NaN arguments). -/
def mathMin (a b : ℚ) : ℚ :=
  if a ≤ b then a else b

/-- Coordinates, as returned by `geocodeLocation`. -/
structure Coord where
  lat : ℚ
  lng : ℚ
deriving DecidableEq

/-- `ValidationSource` from weather-disaster-validator.ts (the `data` blob and
timestamp fields carry no information the logic reads and are omitted). -/
structure ValidationSource where
  source : String
  confirmed : Bool
  confidence : ℚ
deriving DecidableEq

/-- `OfficialAlert` from weather-disaster-validator.ts, restricted to the
fields `determineSeverity` reads. -/
structure OfficialAlert where
  source : String
  alertType : String
  severity : String
deriving DecidableEq

/-- `SeismicData` from weather-disaster-validator.ts, restricted to the
fields the severity logic reads. -/
structure SeismicData where
  magnitude : ℚ
  tsunami : Bool
deriving DecidableEq

/-- The four severity levels of `WeatherValidationResult.severity`. -/
inductive Severity where
  | low
  | medium
  | high
  | critical
deriving DecidableEq

/-- `WeatherValidationResult` (meteorologicalData, affectedArea and the
timestamps are omitted: no claim reads them). -/
structure Validation where
  isValidated : Bool
  disasterConfirmed : Bool
  confidence : ℚ
  validationSources : List ValidationSource
  officialAlerts : List OfficialAlert
  seismicData : List SeismicData
  severity : Severity
  recommendations : List String
deriving DecidableEq

/-- The initial validation record built at the top of
`validateWithOfficialSources` (lines 135–147). -/
def initValidation : Validation :=
  { isValidated := true
    disasterConfirmed := false
    confidence := 0
    validationSources := []
    officialAlerts := []
    seismicData := []
    severity := .low
    recommendations := [] }

/-- `calculateOverallConfidence` (weather-disaster-validator.ts lines
631–654): average the confidences of the confirmed sources, and when more
than one source confirms, boost by 10 per extra source, capped at 95. -/
def calculateOverallConfidence (validation : Validation) : ℚ :=
  if validation.validationSources.isEmpty then 0
  else
    let confirmed := validation.validationSources.filter (fun s => s.confirmed)
    let totalConfidence := (confirmed.map (fun s => s.confidence)).sum
    let confirmedSources := confirmed.length
    if confirmedSources = 0 then 0
    else
      let avgConfidence := totalConfidence / (confirmedSources : ℚ)
      if 1 < confirmedSources then
        mathMin (avgConfidence + ((confirmedSources : ℚ) - 1) * 10) 95
      else avgConfidence

/-- `determineSeverity` (lines 656–672): low below confidence 50, critical on
an extreme alert / warning alert type / magnitude above 7, then high above
85 and medium above 70. -/
def determineSeverity (validation : Validation) : Severity :=
  if validation.confidence < 50 then .low
  else
    let hasCriticalAlerts := validation.officialAlerts.any (fun alert =>
      subMatch "extreme" (jsToLower alert.severity) || subMatch "warning" (jsToLower alert.alertType))
    let hasHighMagnitude := validation.seismicData.any (fun d => decide (7 < d.magnitude))
    if hasCriticalAlerts || hasHighMagnitude then .critical
    else if 85 < validation.confidence then .high
    else if 70 < validation.confidence then .medium
    else .low

/-- `generateRecommendations` (lines 674–705). -/
def generateRecommendations (validation : Validation) (disasterType : Option String) : List String :=
  if validation.disasterConfirmed then
    ["Monitor official emergency channels", "Follow local evacuation orders if issued"] ++
    (match disasterType.map jsToLower with
     | some "earthquake" => ["Prepare for aftershocks", "Check for structural damage"]
     | some "hurricane" => ["Secure outdoor items", "Stock emergency supplies"]
     | some "tornado" => ["Seek immediate shelter", "Avoid windows and upper floors"]
     | some "flood" => ["Move to higher ground", "Avoid driving through flooded roads"]
     | _ => [])
  else
    ["Continue monitoring for updates", "Verify information through official sources"]

/-- Lines 189–197 of `validateWithOfficialSources`: after the per-type source
queries, the fusion result overwrites `confidence`, `disasterConfirmed` is
recomputed as `confidence > 70`, then severity and recommendations are
derived. -/
def finalizeValidation (disasterType : Option String) (v : Validation) : Validation :=
  let conf := calculateOverallConfidence v
  let v1 := { v with confidence := conf, disasterConfirmed := decide (70 < conf) }
  let v2 := { v1 with severity := determineSeverity v1 }
  { v2 with recommendations := generateRecommendations v2 disasterType }

/-- The `case 'tsunami'` placeholder branch (lines 164–175): push one
confirmed placeholder source at confidence 50 and set `disasterConfirmed`
and `confidence` directly inside the branch. -/
def tsunamiBranch (v : Validation) : Validation :=
  { v with
    validationSources :=
      v.validationSources ++ [{ source := "tsunami-warning-centers", confirmed := true, confidence := 50 }]
    disasterConfirmed := true
    confidence := 50 }

/-- `validateWithOfficialSources` (lines 126–215), with the network made
explicit: `geo` is the geocoding outcome and `branchEffect` the combined
effect of the per-disaster-type source queries (USGS, NOAA, ... — each only
appends to the sources/alerts/seismic lists; quantifying over arbitrary
effects covers every network outcome). The tsunami branch is deterministic
and embedded directly. Returns the validation stored on the event together
with the flag of line 203: whether a validated alert record is created
(`disasterConfirmed && confidence > 80`). -/
def validateWithOfficialSources (disasterType : Option String) (geo : Option Coord)
    (branchEffect : Validation → Validation) : Validation × Bool :=
  match geo with
  | none =>
    ({ initValidation with
        recommendations := initValidation.recommendations ++ ["Unable to validate - location not found"] },
     false)
  | some _ =>
    let branched :=
      if disasterType.map jsToLower = some "tsunami" then tsunamiBranch initValidation
      else branchEffect initValidation
    let v := finalizeValidation disasterType branched
    (v, v.disasterConfirmed && decide (80 < v.confidence))

/-! ## ai-disaster-analyzer.ts -/

/-- `DISASTER_DETECTION_KEYWORDS` (ai-disaster-analyzer.ts lines 16–72),
in object-iteration order. -/
def DISASTER_DETECTION_KEYWORDS : List (String × List String) :=
  [("seismic",
    ["earthquake", "quake", "tremor", "seismic", "magnitude", "richter",
     "aftershock", "epicenter", "fault line", "tectonic"]),
   ("water",
    ["tsunami", "flood", "flooding", "flash flood", "storm surge",
     "dam break", "levee", "overflow", "inundation", "deluge"]),
   ("weather",
    ["hurricane", "typhoon", "cyclone", "tornado", "twister",
     "thunderstorm", "severe weather", "hailstorm", "lightning storm"]),
   ("fire",
    ["wildfire", "forest fire", "brush fire", "fire storm",
     "arson", "explosion", "blaze", "inferno"]),
   ("winter",
    ["blizzard", "snowstorm", "ice storm", "avalanche",
     "freezing rain", "whiteout", "snow emergency"]),
   ("geological",
    ["landslide", "mudslide", "rockslide", "sinkhole",
     "volcanic eruption", "lava flow", "ash cloud"]),
   ("impact",
    ["casualties", "fatalities", "deaths", "injured", "missing",
     "trapped", "displaced", "evacuated", "homeless", "damage",
     "destroyed", "collapsed", "devastated"]),
   ("emergency",
    ["emergency", "crisis", "disaster", "catastrophe",
     "evacuation", "rescue", "relief", "aid", "shelter",
     "state of emergency", "martial law"]),
   ("alerts",
    ["alert", "warning", "watch", "advisory", "urgent",
     "breaking", "developing", "ongoing", "active"])]

/-- `getCategoryWeight` (lines 342–355). -/
def getCategoryWeight (category : String) : ℚ :=
  if category = "seismic" then 8
  else if category = "water" then 7
  else if category = "weather" then 6
  else if category = "fire" then 7
  else if category = "winter" then 6
  else if category = "geological" then 7
  else if category = "impact" then 5
  else if category = "emergency" then 4
  else if category = "alerts" then 3
  else 1

/-- The inner keyword loop of `performKeywordAnalysis` (lines 314–320) for one
category: accumulated score and matched keywords, in keyword order. -/
def scanKeywordList (category : String) (kws : List String) (fullText : String) :
    ℚ × List String :=
  match kws with
  | [] => (0, [])
  | kw :: rest =>
    let r := scanKeywordList category rest fullText
    if subMatch (jsToLower kw) fullText then (getCategoryWeight category + r.1, kw :: r.2)
    else r

/-- The outer category loop of `performKeywordAnalysis` (lines 313–321):
total score, matched keywords, and `disasterCategory` = the first category
(in object order) with a matched keyword. -/
def scanCategories (cats : List (String × List String)) (fullText : String) :
    ℚ × List String × Option String :=
  match cats with
  | [] => (0, [], none)
  | (c, kws) :: rest =>
    let r1 := scanKeywordList c kws fullText
    let r2 := scanCategories rest fullText
    (r1.1 + r2.1, r1.2 ++ r2.2.1, if r1.2.isEmpty then r2.2.2 else some c)

/-- `extractEntities` output (lines 525–532). The regex extractors themselves
are network-free but regex-based; entity lists enter the model as data. -/
structure Entities where
  locations : List String
  numbers : List String
  dates : List String
  organizations : List String
deriving DecidableEq

/-- The anonymous record `performKeywordAnalysis` returns (lines 332–339). -/
structure PreAnalysis where
  potentialDisaster : Bool
  confidence : ℚ
  matchedKeywords : List String
  disasterCategory : Option String
  location : Option String
  entities : Entities
deriving DecidableEq

/-- The score accumulated by `performKeywordAnalysis` (lines 308–330):
keyword-category weights, plus 10 when some extracted number mentions
magnitude/richter, plus 5 when `extractDetailedLocation` found a location.
`location` stands for the regex result of `extractDetailedLocation`
(modelled as a parameter); the magnitude check on `entities.numbers` is
the source's `.some(num.includes(...))` test, implemented for real. -/
def keywordScore (title content : String) (location : Option String)
    (entities : Entities) : ℚ :=
  let fullText := jsToLower (title ++ " " ++ content)
  (scanCategories DISASTER_DETECTION_KEYWORDS fullText).1
    + (if entities.numbers.any (fun num => subMatch "magnitude" num || subMatch "richter" num)
       then 10 else 0)
    + (if location.isSome then 5 else 0)

/-- `performKeywordAnalysis` (lines 304–340). -/
def performKeywordAnalysis (title content : String) (location : Option String)
    (entities : Entities) : PreAnalysis :=
  let fullText := jsToLower (title ++ " " ++ content)
  let score := keywordScore title content location entities
  { potentialDisaster := decide (15 ≤ score)
    confidence := mathMin (score * 5) 95
    matchedKeywords := (scanCategories DISASTER_DETECTION_KEYWORDS fullText).2.1
    disasterCategory := (scanCategories DISASTER_DETECTION_KEYWORDS fullText).2.2
    location := location
    entities := entities }

/-- `DisasterAnalysis.urgency` values. -/
inductive Urgency where
  | low
  | medium
  | high
  | immediate
deriving DecidableEq

/-- `DisasterAnalysis.timeframe` values. -/
inductive Timeframe where
  | historical
  | current
  | imminent
deriving DecidableEq

/-- `DisasterAnalysis` (lines 74–94). -/
structure DisasterAnalysis where
  isDisaster : Bool
  disasterType : Option String
  disasterCategory : Option String
  severity : Severity
  confidence : ℚ
  location : Option String
  coordinates : Option Coord
  urgency : Urgency
  affectedPopulation : Option ℚ
  timeframe : Timeframe
  summary : String
  keyIndicators : List String
  recommendations : List String
  extractedEntities : Entities
deriving DecidableEq

/-- The JSON object the model is asked to emit, as read by `parseAIResponse`;
`none` fields are absent keys. -/
structure ParsedAI where
  isDisaster : Option Bool
  disasterType : Option String
  severity : Option Severity
  confidence : Option ℚ
  location : Option String
  urgency : Option Urgency
  affectedPopulation : Option ℚ
  timeframe : Option Timeframe
  summary : Option String
  keyIndicators : Option (List String)
  recommendations : Option (List String)
deriving DecidableEq

/-- A Bedrock model response after decoding: `parsed` is the result of the
`content.match(/\x7b[\s\S]*\x7d/)` extraction followed by `JSON.parse` —
`none` when the response text holds no parseable JSON object. -/
structure AIResponse where
  parsed : Option ParsedAI
deriving DecidableEq

/-- JS `x || d` for JSON string fields: the empty string is falsy. -/
def jsOrStr (x d : Option String) : Option String :=
  match x with
  | some s => if s = "" then d else some s
  | none => d

/-- JS `x || null` for JSON number fields: 0 is falsy. -/
def jsOrNum (x : Option ℚ) : Option ℚ :=
  match x with
  | some q => if q = 0 then none else some q
  | none => none

/-- `mapCategoryToType` (lines 513–523); an unmapped or absent category gives
null. -/
def mapCategoryToType (category : Option String) : Option String :=
  match category with
  | some "seismic" => some "earthquake"
  | some "water" => some "flood"
  | some "weather" => some "storm"
  | some "fire" => some "wildfire"
  | some "winter" => some "blizzard"
  | some "geological" => some "landslide"
  | _ => none

/-- `createFallbackAnalysis` (lines 494–511). In the summary template a null
category prints as the string "null", as JS template literals do. -/
def createFallbackAnalysis (preAnalysis : PreAnalysis) : DisasterAnalysis :=
  { isDisaster := preAnalysis.potentialDisaster
    disasterType := mapCategoryToType preAnalysis.disasterCategory
    disasterCategory := preAnalysis.disasterCategory
    severity := if 70 < preAnalysis.confidence then .medium else .low
    confidence := preAnalysis.confidence
    location := preAnalysis.location
    coordinates := none
    urgency := if 80 < preAnalysis.confidence then .medium else .low
    affectedPopulation := none
    timeframe := .current
    summary := "Potential " ++ (preAnalysis.disasterCategory.getD "null")
      ++ " disaster detected based on keyword analysis"
    keyIndicators := preAnalysis.matchedKeywords
    recommendations := ["Monitor for official updates", "Verify through additional sources"]
    extractedEntities := preAnalysis.entities }

/-- `parseAIResponse` (lines 459–492): read the parsed JSON with JS `||`
defaulting (note `Math.min(parsed.confidence || 0, 100)` has no lower
clamp); when no JSON object was found (or parsing threw), fall back to the
keyword analysis. -/
def parseAIResponse (aiResponse : AIResponse) (preAnalysis : PreAnalysis) : DisasterAnalysis :=
  match aiResponse.parsed with
  | some parsed =>
    { isDisaster := parsed.isDisaster.getD false
      disasterType := jsOrStr parsed.disasterType none
      disasterCategory := preAnalysis.disasterCategory
      severity := parsed.severity.getD .low
      confidence := mathMin (parsed.confidence.getD 0) 100
      location := jsOrStr parsed.location preAnalysis.location
      coordinates := none
      urgency := parsed.urgency.getD .low
      affectedPopulation := jsOrNum parsed.affectedPopulation
      timeframe := parsed.timeframe.getD .current
      summary := parsed.summary.getD ""
      keyIndicators := parsed.keyIndicators.getD preAnalysis.matchedKeywords
      recommendations := parsed.recommendations.getD []
      extractedEntities := preAnalysis.entities }
  | none => createFallbackAnalysis preAnalysis

/-- `performAIAnalysis` (lines 357–373): call the model; on a thrown error
fall back to the keyword analysis. `modelCall` is the outcome of
`invokeBedrockNova`. -/
def performAIAnalysis (modelCall : Except Unit AIResponse) (preAnalysis : PreAnalysis) :
    DisasterAnalysis :=
  match modelCall with
  | .ok resp => parseAIResponse resp preAnalysis
  | .error _ => createFallbackAnalysis preAnalysis

/-- The non-disaster literal of `analyzePostWithAI` (lines 270–285). -/
def nonDisasterResult (preAnalysis : PreAnalysis) : DisasterAnalysis :=
  { isDisaster := false
    disasterType := none
    disasterCategory := none
    severity := .low
    confidence := preAnalysis.confidence
    location := preAnalysis.location
    coordinates := none
    urgency := .low
    affectedPopulation := none
    timeframe := .current
    summary := "No disaster indicators detected"
    keyIndicators := preAnalysis.matchedKeywords
    recommendations := []
    extractedEntities := preAnalysis.entities }

/-- The classification step of `analyzePostWithAI` (lines 259–296): when the
pre-filter does not warrant classification, the model is never invoked and
the non-disaster literal is returned. -/
def analyzePostWithAI (preAnalysis : PreAnalysis) (modelCall : Except Unit AIResponse) :
    DisasterAnalysis :=
  if preAnalysis.potentialDisaster then performAIAnalysis modelCall preAnalysis
  else nonDisasterResult preAnalysis

/-! ## Helper lemmas -/

lemma mathMin_eq_min (a b : ℚ) : mathMin a b = min a b := by
  rw [mathMin, min_def]

lemma fusion_of_no_confirmed (v : Validation)
    (h : v.validationSources.filter (fun s => s.confirmed) = []) :
    calculateOverallConfidence v = 0 := by
  unfold calculateOverallConfidence
  split
  · rfl
  · simp [h]

lemma fusion_of_single (v : Validation) (s : ValidationSource)
    (h : v.validationSources.filter (fun t => t.confirmed) = [s]) :
    calculateOverallConfidence v = s.confidence := by
  have hne : v.validationSources.isEmpty = false := by
    cases hv : v.validationSources with
    | nil => rw [hv] at h; simp at h
    | cons a l => simp
  unfold calculateOverallConfidence
  rw [hne]
  simp [h]

lemma fusion_of_multi (v : Validation)
    (h : 2 ≤ (v.validationSources.filter (fun t => t.confirmed)).length) :
    calculateOverallConfidence v =
      mathMin ((((v.validationSources.filter (fun t => t.confirmed)).map (fun t => t.confidence)).sum
            / ((v.validationSources.filter (fun t => t.confirmed)).length : ℚ))
           + (((v.validationSources.filter (fun t => t.confirmed)).length : ℚ) - 1) * 10) 95 := by
  have hne : v.validationSources.isEmpty = false := by
    cases hv : v.validationSources with
    | nil => rw [hv] at h; simp at h
    | cons a l => simp
  have hn0 : (v.validationSources.filter (fun t => t.confirmed)).length ≠ 0 := by omega
  have hn1 : 1 < (v.validationSources.filter (fun t => t.confirmed)).length := by omega
  unfold calculateOverallConfidence
  rw [hne]
  simp only [Bool.false_eq_true, if_false, if_neg hn0, if_pos hn1]

/-! ## Claim theorems -/

/-- C1: the confidence fusion agrees with the reference definition: zero
confirmed votes give confidence 0; exactly one confirmed vote gives exactly
that vote's confidence; n ≥ 2 confirmed votes give
min(mean + (n − 1)·10, 95); in particular two confirmed votes at 60 and 70
fuse to 75. -/
theorem fusion_matches_reference_definition :
    (∀ v : Validation, v.validationSources.filter (fun s => s.confirmed) = [] →
      calculateOverallConfidence v = 0)
  ∧ (∀ (v : Validation) (s : ValidationSource),
      v.validationSources.filter (fun t => t.confirmed) = [s] →
      calculateOverallConfidence v = s.confidence)
  ∧ (∀ v : Validation, 2 ≤ (v.validationSources.filter (fun t => t.confirmed)).length →
      calculateOverallConfidence v =
        mathMin ((((v.validationSources.filter (fun t => t.confirmed)).map (fun t => t.confidence)).sum
              / ((v.validationSources.filter (fun t => t.confirmed)).length : ℚ))
             + (((v.validationSources.filter (fun t => t.confirmed)).length : ℚ) - 1) * 10) 95)
  ∧ calculateOverallConfidence
      { initValidation with
        validationSources := [⟨"sourceA", true, 60⟩, ⟨"sourceB", true, 70⟩] } = 75 :=
  ⟨fusion_of_no_confirmed, fusion_of_single, fusion_of_multi,
   by norm_num [calculateOverallConfidence, initValidation, mathMin]⟩

/-- Witness for C1: the three hypothetical parts instantiated at concrete
vote lists. -/
theorem fusion_matches_reference_definition_witness :
    calculateOverallConfidence
      { initValidation with validationSources := [⟨"sourceA", false, 40⟩] } = 0
  ∧ calculateOverallConfidence
      { initValidation with validationSources := [⟨"sourceA", true, 80⟩] } = 80
  ∧ calculateOverallConfidence
      { initValidation with
        validationSources := [⟨"sourceA", true, 60⟩, ⟨"sourceB", true, 70⟩] } =
      mathMin (((60 : ℚ) + 70 + 0) / 2 + (2 - 1) * 10) 95 := by
  refine ⟨fusion_matches_reference_definition.1 _ (by simp [initValidation]), ?_, ?_⟩
  · exact fusion_matches_reference_definition.2.1 _ ⟨"sourceA", true, 80⟩ (by simp [initValidation])
  · have := fusion_matches_reference_definition.2.2.1
      { initValidation with
        validationSources := [⟨"sourceA", true, 60⟩, ⟨"sourceB", true, 70⟩] } (by simp [initValidation])
    rw [this]
    norm_num [mathMin]

/-- C2: the returned `disasterConfirmed` flag is exactly "fusion confidence
strictly above 70", for every state the per-type source branches can
produce — and in particular the tsunami placeholder branch's own
`disasterConfirmed = true` assignment is overwritten: its returned result
has `disasterConfirmed = false` (fusion confidence 50). -/
theorem disasterConfirmed_is_fusion_threshold :
    (∀ (dt : Option String) (v : Validation),
      (finalizeValidation dt v).disasterConfirmed = decide (70 < calculateOverallConfidence v)
      ∧ (finalizeValidation dt v).confidence = calculateOverallConfidence v)
  ∧ (∀ (c : Coord) (e : Validation → Validation),
      (validateWithOfficialSources (some "tsunami") (some c) e).1.disasterConfirmed = false
      ∧ (validateWithOfficialSources (some "tsunami") (some c) e).1.confidence = 50) := by
  constructor
  · intro dt v
    exact ⟨rfl, rfl⟩
  · intro c e
    have hts : (some "tsunami" : Option String).map jsToLower = some "tsunami" := by decide
    constructor
    · simp only [validateWithOfficialSources, hts, if_pos]
      norm_num [finalizeValidation, calculateOverallConfidence, tsunamiBranch, initValidation]
    · simp only [validateWithOfficialSources, hts, if_pos]
      norm_num [finalizeValidation, calculateOverallConfidence, tsunamiBranch, initValidation]

/-- C7: when geocoding returns no coordinate, the validator returns
`disasterConfirmed = false`, confidence 0, the "location not found"
recommendation, an empty source list, no alert, and no error — the result
does not depend on the source-query effect at all. -/
theorem geocode_failure_short_circuits :
    ∀ (dt : Option String) (e1 e2 : Validation → Validation),
      validateWithOfficialSources dt none e1 = validateWithOfficialSources dt none e2
    ∧ (validateWithOfficialSources dt none e1).1.disasterConfirmed = false
    ∧ (validateWithOfficialSources dt none e1).1.confidence = 0
    ∧ (validateWithOfficialSources dt none e1).1.validationSources = []
    ∧ (validateWithOfficialSources dt none e1).1.recommendations
        = ["Unable to validate - location not found"]
    ∧ (validateWithOfficialSources dt none e1).2 = false :=
  fun _ _ _ => ⟨rfl, rfl, rfl, rfl, rfl, rfl⟩

/-- C10 (amended): a validated-alert record is created exactly when
`disasterConfirmed` holds and the overall confidence is strictly above 80 —
the validation-to-alert gate is 80, stricter than (not equal to) the
confirmation threshold 70. -/
theorem alert_gate_is_eighty :
    ∀ (dt : Option String) (geo : Option Coord) (e : Validation → Validation),
      (validateWithOfficialSources dt geo e).2
        = ((validateWithOfficialSources dt geo e).1.disasterConfirmed
            && decide (80 < (validateWithOfficialSources dt geo e).1.confidence)) := by
  intro dt geo e
  cases geo with
  | none => rfl
  | some c => rfl

/-- A realizable source-query outcome: two confirmed sources at confidences
60 and 70 (e.g. a matching NOAA alert and severe OpenWeather conditions). -/
def twoConfirmedEffect : Validation → Validation :=
  fun v => { v with validationSources :=
    v.validationSources ++ [⟨"NOAA", true, 60⟩, ⟨"OpenWeather", true, 70⟩] }

/-- C10 counterexample: a flood event whose fusion confidence is 75 —
confirmed and strictly above the claimed gate of 70 — creates no
validated-alert record, so the validation-to-alert gate is not 70. -/
theorem confirmed_above_seventy_without_alert :
    (validateWithOfficialSources (some "flood") (some ⟨0, 0⟩) twoConfirmedEffect).1.disasterConfirmed
        = true
  ∧ (validateWithOfficialSources (some "flood") (some ⟨0, 0⟩) twoConfirmedEffect).1.confidence = 75
  ∧ 70 < (validateWithOfficialSources (some "flood") (some ⟨0, 0⟩) twoConfirmedEffect).1.confidence
  ∧ (validateWithOfficialSources (some "flood") (some ⟨0, 0⟩) twoConfirmedEffect).2 = false := by
  have hfl : ¬ ((some "flood" : Option String).map jsToLower = some "tsunami") := by decide
  refine ⟨?_, ?_, ?_, ?_⟩ <;>
    simp only [validateWithOfficialSources, if_neg hfl] <;>
    norm_num [finalizeValidation, calculateOverallConfidence, twoConfirmedEffect,
      initValidation, mathMin]

/-- A validation state with a magnitude-8 seismic reading but overall
confidence 40 (e.g. the quake was too distant for any source to count as
confirmed, so fusion returned 0–40). -/
def lowConfidenceHighMagnitude : Validation :=
  { initValidation with confidence := 40, seismicData := [⟨8, false⟩] }

/-- C5 counterexample: a result holding a seismic reading of magnitude 8
gets severity "low", not "critical", because the confidence < 50 branch
fires first — severity is not "critical" for every confidence value. -/
theorem high_magnitude_but_low_severity :
    (∃ d ∈ lowConfidenceHighMagnitude.seismicData, 7 < d.magnitude)
  ∧ determineSeverity lowConfidenceHighMagnitude = .low
  ∧ determineSeverity lowConfidenceHighMagnitude ≠ .critical := by
  have hlow : determineSeverity lowConfidenceHighMagnitude = .low := by
    norm_num [determineSeverity, lowConfidenceHighMagnitude, initValidation]
  refine ⟨⟨⟨8, false⟩, by simp [lowConfidenceHighMagnitude, initValidation], by norm_num⟩, hlow, ?_⟩
  rw [hlow]
  decide

/-- C5 (amended): whenever the overall confidence is at least 50, any
seismic reading with magnitude above 7.0 forces severity "critical". -/
theorem severity_critical_on_high_magnitude (v : Validation)
    (hconf : 50 ≤ v.confidence) (hmag : ∃ d ∈ v.seismicData, 7 < d.magnitude) :
    determineSeverity v = .critical := by
  unfold determineSeverity
  rw [if_neg (not_lt.mpr hconf)]
  have hany : v.seismicData.any (fun d => decide (7 < d.magnitude)) = true := by
    rcases hmag with ⟨d, hd, h7⟩
    exact List.any_eq_true.mpr ⟨d, hd, by simpa using h7⟩
  simp [hany]

/-- Witness for the amended C5: confidence 60 with a magnitude-8 reading. -/
theorem severity_critical_on_high_magnitude_witness :
    determineSeverity { initValidation with confidence := 60, seismicData := [⟨8, false⟩] }
      = .critical :=
  severity_critical_on_high_magnitude _ (by norm_num [initValidation])
    ⟨⟨8, false⟩, by simp [initValidation], by norm_num⟩

/-- Two confirmed votes at 90 and 20: fusion gives min(55 + 10, 95) = 65. -/
def unbalancedVotes : Validation :=
  { initValidation with validationSources := [⟨"sourceA", true, 90⟩, ⟨"sourceB", true, 20⟩] }

/-- C4 counterexample: with confirmed votes at 90 and 20 the fused
confidence is 65, strictly below the maximum confirmed vote 90 — fusion is
not bounded below by the maximum confirmed vote. -/
theorem fusion_below_max_confirmed_vote :
    calculateOverallConfidence unbalancedVotes = 65
  ∧ (⟨"sourceA", true, 90⟩ : ValidationSource) ∈ unbalancedVotes.validationSources
  ∧ (⟨"sourceA", true, 90⟩ : ValidationSource).confirmed = true
  ∧ calculateOverallConfidence unbalancedVotes < 90 := by
  refine ⟨?_, by simp [unbalancedVotes, initValidation], rfl, ?_⟩ <;>
    norm_num [calculateOverallConfidence, unbalancedVotes, initValidation, mathMin]

/-- C4 (amended): with at least two confirmed votes, the fused confidence is
at least min(mean of the confirmed votes + 10, 95) — the boost is monotone
relative to the mean, not the maximum. -/
theorem fusion_at_least_boosted_mean (v : Validation)
    (h : 2 ≤ (v.validationSources.filter (fun t => t.confirmed)).length) :
    mathMin ((((v.validationSources.filter (fun t => t.confirmed)).map (fun t => t.confidence)).sum
          / ((v.validationSources.filter (fun t => t.confirmed)).length : ℚ)) + 10) 95
      ≤ calculateOverallConfidence v := by
  rw [fusion_of_multi v h, mathMin_eq_min, mathMin_eq_min]
  have h2 : (2 : ℚ) ≤ ((v.validationSources.filter (fun t => t.confirmed)).length : ℚ) := by
    exact_mod_cast h
  exact min_le_min (by nlinarith) le_rfl

/-- Witness for the amended C4: the 60/70 vote list. -/
theorem fusion_at_least_boosted_mean_witness :
    mathMin (((({ initValidation with
        validationSources := [⟨"sourceA", true, 60⟩, ⟨"sourceB", true, 70⟩] } :
          Validation).validationSources.filter (fun t => t.confirmed)).map
            (fun t => t.confidence)).sum
        / ((({ initValidation with
        validationSources := [⟨"sourceA", true, 60⟩, ⟨"sourceB", true, 70⟩] } :
          Validation).validationSources.filter (fun t => t.confirmed)).length : ℚ) + 10) 95
      ≤ calculateOverallConfidence { initValidation with
          validationSources := [⟨"sourceA", true, 60⟩, ⟨"sourceB", true, 70⟩] } :=
  fusion_at_least_boosted_mean _ (by simp [initValidation])

def singleOverconfidentVote : Validation :=
  { initValidation with validationSources := [⟨"sourceA", true, 150⟩] }

def emptyPreAnalysis : PreAnalysis :=
  { potentialDisaster := false, confidence := 0, matchedKeywords := [],
    disasterCategory := none, location := none, entities := ⟨[], [], [], []⟩ }

def negativeConfidenceResponse : AIResponse :=
  ⟨some { isDisaster := some true, disasterType := none, severity := none,
          confidence := some (-5), location := none, urgency := none,
          affectedPopulation := none, timeframe := none, summary := none,
          keyIndicators := none, recommendations := none }⟩

/-- C3 counterexample: a single confirmed vote at confidence 150 fuses to
150 > 100 (the single-source path has no clamp), and a model-reported
confidence of −5 is stored as −5 < 0 (`Math.min(x, 100)` has no lower
clamp) — confidence is not always in [0,100]. -/
theorem confidence_escapes_unit_interval :
    calculateOverallConfidence singleOverconfidentVote = 150
  ∧ 100 < calculateOverallConfidence singleOverconfidentVote
  ∧ (parseAIResponse negativeConfidenceResponse emptyPreAnalysis).confidence = -5
  ∧ (parseAIResponse negativeConfidenceResponse emptyPreAnalysis).confidence < 0 := by
  have h1 : calculateOverallConfidence singleOverconfidentVote = 150 := by
    norm_num [calculateOverallConfidence, singleOverconfidentVote, initValidation]
  have h2 : (parseAIResponse negativeConfidenceResponse emptyPreAnalysis).confidence = -5 := by
    norm_num [parseAIResponse, negativeConfidenceResponse, emptyPreAnalysis, mathMin]
  exact ⟨h1, by rw [h1]; norm_num, h2, by rw [h2]; norm_num⟩

/-- C3 (amended): the fused confidence lies in [0,100] provided every vote's
confidence lies in [0,100]; the stored classification confidence is always
at most 100 and is non-negative provided the model-reported confidence
(defaulted to 0 when absent) is non-negative. -/
theorem confidence_clamped_for_ranged_votes :
    (∀ v : Validation,
      (∀ s ∈ v.validationSources, 0 ≤ s.confidence ∧ s.confidence ≤ 100) →
      0 ≤ calculateOverallConfidence v ∧ calculateOverallConfidence v ≤ 100)
  ∧ (∀ (r : AIResponse) (pre : PreAnalysis) (p : ParsedAI), r.parsed = some p →
      (parseAIResponse r pre).confidence ≤ 100
      ∧ (0 ≤ p.confidence.getD 0 → 0 ≤ (parseAIResponse r pre).confidence)) := by
  constructor
  · intro v hv
    rcases hf : v.validationSources.filter (fun t => t.confirmed) with _ | ⟨s, rest⟩
    · rw [fusion_of_no_confirmed v hf]
      norm_num
    · rcases rest with _ | ⟨s2, rest2⟩
      · rw [fusion_of_single v s hf]
        have hs : s ∈ v.validationSources := by
          have : s ∈ v.validationSources.filter (fun t => t.confirmed) := by
            rw [hf]; exact List.mem_singleton_self s
          exact (List.mem_filter.mp this).1
        exact (hv s hs)
      · have hlen : 2 ≤ (v.validationSources.filter (fun t => t.confirmed)).length := by
          rw [hf]; simp
        rw [fusion_of_multi v hlen, mathMin_eq_min]
        have hsum : 0 ≤ ((v.validationSources.filter (fun t => t.confirmed)).map
            (fun t => t.confidence)).sum := by
          apply List.sum_nonneg
          intro x hx
          rcases List.mem_map.mp hx with ⟨t, ht, rfl⟩
          exact (hv t (List.mem_filter.mp ht).1).1
        have hn : (0 : ℚ) < ((v.validationSources.filter (fun t => t.confirmed)).length : ℚ) := by
          have : 0 < (v.validationSources.filter (fun t => t.confirmed)).length := by omega
          exact_mod_cast this
        have hnq : (2 : ℚ) ≤ ((v.validationSources.filter (fun t => t.confirmed)).length : ℚ) := by
          exact_mod_cast hlen
        constructor
        · apply le_min _ (by norm_num)
          have havg : 0 ≤ ((v.validationSources.filter (fun t => t.confirmed)).map
              (fun t => t.confidence)).sum /
              ((v.validationSources.filter (fun t => t.confirmed)).length : ℚ) :=
            div_nonneg hsum hn.le
          nlinarith
        · exact (min_le_right _ _).trans (by norm_num)
  · intro r pre p hp
    have : (parseAIResponse r pre).confidence = mathMin (p.confidence.getD 0) 100 := by
      simp [parseAIResponse, hp]
    rw [this, mathMin_eq_min]
    exact ⟨min_le_right _ _, fun h0 => le_min h0 (by norm_num)⟩

def overConfidentResponse : AIResponse :=
  ⟨some { isDisaster := none, disasterType := none, severity := none,
          confidence := some 250, location := none, urgency := none,
          affectedPopulation := none, timeframe := none, summary := none,
          keyIndicators := none, recommendations := none }⟩

/-- Witness for the amended C3: the 60/70 vote list, and a model response
reporting confidence 250 (clamped to at most 100). -/
theorem confidence_clamped_for_ranged_votes_witness :
    (0 ≤ calculateOverallConfidence
        { initValidation with validationSources := [⟨"sourceA", true, 60⟩, ⟨"sourceB", true, 70⟩] }
      ∧ calculateOverallConfidence
        { initValidation with validationSources := [⟨"sourceA", true, 60⟩, ⟨"sourceB", true, 70⟩] }
          ≤ 100)
  ∧ ((parseAIResponse overConfidentResponse emptyPreAnalysis).confidence ≤ 100) := by
  constructor
  · exact confidence_clamped_for_ranged_votes.1 _ (by
      intro s hs
      simp [initValidation] at hs
      rcases hs with h | h <;> rw [h] <;> norm_num)
  · exact (confidence_clamped_for_ranged_votes.2 _ emptyPreAnalysis _ rfl).1

/-- Spec-side category→type table for C6. -/
def specCategoryToType (category : Option String) : Option String :=
  match category with
  | some "seismic" => some "earthquake"
  | some "water" => some "flood"
  | some "weather" => some "storm"
  | some "fire" => some "wildfire"
  | some "winter" => some "blizzard"
  | some "geological" => some "landslide"
  | _ => none

lemma mapCategory_eq_spec (c : Option String) : mapCategoryToType c = specCategoryToType c := rfl

/-- C6: for every pre-analysis, the classifier fallback is identical whether
triggered by a thrown model-call error or by a response with no parseable
JSON, and it equals the deterministic mapping of the spec: the fixed
category→type table on the dominant category, severity medium above
pre-filter confidence 70 else low, the pre-filter confidence, and the
pre-filter's warrants-classification boolean. -/
theorem fallback_identical_on_error_and_unparseable (pre : PreAnalysis) (resp : AIResponse)
    (h : resp.parsed = none) :
    performAIAnalysis (.error ()) pre = performAIAnalysis (.ok resp) pre
  ∧ performAIAnalysis (.error ()) pre = createFallbackAnalysis pre
  ∧ (performAIAnalysis (.error ()) pre).disasterType = specCategoryToType pre.disasterCategory
  ∧ (performAIAnalysis (.error ()) pre).severity
      = (if 70 < pre.confidence then .medium else .low)
  ∧ (performAIAnalysis (.error ()) pre).confidence = pre.confidence
  ∧ (performAIAnalysis (.error ()) pre).isDisaster = pre.potentialDisaster := by
  refine ⟨?_, rfl, mapCategory_eq_spec pre.disasterCategory, rfl, rfl, rfl⟩
  simp [performAIAnalysis, parseAIResponse, h]

/-- Witness for C6: a concrete pre-analysis with an unparseable response. -/
theorem fallback_identical_witness :
    performAIAnalysis (.error ()) emptyPreAnalysis = performAIAnalysis (.ok ⟨none⟩) emptyPreAnalysis
  ∧ (performAIAnalysis (.error ()) emptyPreAnalysis).confidence = emptyPreAnalysis.confidence :=
  ⟨(fallback_identical_on_error_and_unparseable emptyPreAnalysis ⟨none⟩ rfl).1,
   (fallback_identical_on_error_and_unparseable emptyPreAnalysis ⟨none⟩ rfl).2.2.2.2.1⟩

end SmartEAS

namespace SmartEAS

/-- C9: when the pre-filter does not warrant classification, the result is
independent of the model outcome (the model is never consulted) and is the
non-disaster literal: `isDisaster = false` with the pre-filter's
confidence. -/
theorem prefilter_gate_skips_model (pre : PreAnalysis) (h : pre.potentialDisaster = false)
    (m1 m2 : Except Unit AIResponse) :
    analyzePostWithAI pre m1 = analyzePostWithAI pre m2
  ∧ analyzePostWithAI pre m1 = nonDisasterResult pre
  ∧ (analyzePostWithAI pre m1).isDisaster = false
  ∧ (analyzePostWithAI pre m1).confidence = pre.confidence := by
  simp [analyzePostWithAI, h, nonDisasterResult]

/-- Witness for C9: the empty pre-analysis under two different model
outcomes. -/
theorem prefilter_gate_skips_model_witness :
    analyzePostWithAI emptyPreAnalysis (.error ()) = analyzePostWithAI emptyPreAnalysis (.ok ⟨none⟩)
  ∧ (analyzePostWithAI emptyPreAnalysis (.error ())).isDisaster = false
  ∧ (analyzePostWithAI emptyPreAnalysis (.error ())).confidence = emptyPreAnalysis.confidence := by
  obtain ⟨a, b, c, d⟩ := prefilter_gate_skips_model emptyPreAnalysis rfl (.error ()) (.ok ⟨none⟩)
  exact ⟨a, c, d⟩

lemma getCategoryWeight_nonneg (c : String) : 0 ≤ getCategoryWeight c := by
  unfold getCategoryWeight
  split_ifs <;> norm_num

lemma scanKeywordList_nonneg (c : String) (kws : List String) (ft : String) :
    0 ≤ (scanKeywordList c kws ft).1 := by
  induction kws with
  | nil => simp [scanKeywordList]
  | cons kw rest ih =>
    simp only [scanKeywordList]
    split
    · have := getCategoryWeight_nonneg c
      simp only []
      linarith
    · exact ih

lemma scanCategories_nonneg (cats : List (String × List String)) (ft : String) :
    0 ≤ (scanCategories cats ft).1 := by
  induction cats with
  | nil => simp [scanCategories]
  | cons p rest ih =>
    obtain ⟨c, kws⟩ := p
    simp only [scanCategories]
    have := scanKeywordList_nonneg c kws ft
    linarith

lemma keywordScore_nonneg (t c : String) (loc : Option String) (e : Entities) :
    0 ≤ keywordScore t c loc e := by
  unfold keywordScore
  dsimp only
  have := scanCategories_nonneg DISASTER_DETECTION_KEYWORDS (jsToLower (t ++ " " ++ c))
  split_ifs <;> linarith

lemma scanKeywordList_eq_zero (c : String) (kws : List String) (ft : String)
    (h : ∀ kw ∈ kws, subMatch (jsToLower kw) ft = false) :
    scanKeywordList c kws ft = (0, []) := by
  induction kws with
  | nil => rfl
  | cons kw rest ih =>
    have h0 : subMatch (jsToLower kw) ft = false := h kw (List.mem_cons_self kw rest)
    have h1 := ih (fun k hk => h k (List.mem_cons_of_mem kw hk))
    simp [scanKeywordList, h0, h1]

lemma scanCategories_eq_zero (cats : List (String × List String)) (ft : String)
    (h : ∀ p ∈ cats, ∀ kw ∈ p.2, subMatch (jsToLower kw) ft = false) :
    scanCategories cats ft = (0, [], none) := by
  induction cats with
  | nil => rfl
  | cons p rest ih =>
    obtain ⟨c, kws⟩ := p
    have h1 : scanKeywordList c kws ft = (0, []) :=
      scanKeywordList_eq_zero c kws ft (fun kw hk => h (c, kws) (List.mem_cons_self _ _) kw hk)
    have h2 := ih (fun q hq kw hk => h q (List.mem_cons_of_mem _ hq) kw hk)
    simp [scanCategories, h1, h2]

/-- C8: the pre-filter is total and its score is non-negative; its
confidence equals min(score·5, 95) and lies in [0,95]; warrants-classification
holds exactly when the score is at least 15; and with no keyword match, no
magnitude/richter number and no location, the score is 0 and
warrants-classification is false. -/
theorem prefilter_score_properties :
    ∀ (title content : String) (loc : Option String) (e : Entities),
      0 ≤ keywordScore title content loc e
    ∧ (performKeywordAnalysis title content loc e).confidence
        = mathMin (keywordScore title content loc e * 5) 95
    ∧ 0 ≤ (performKeywordAnalysis title content loc e).confidence
    ∧ (performKeywordAnalysis title content loc e).confidence ≤ 95
    ∧ ((performKeywordAnalysis title content loc e).potentialDisaster = true
        ↔ 15 ≤ keywordScore title content loc e)
    ∧ ((∀ p ∈ DISASTER_DETECTION_KEYWORDS, ∀ kw ∈ p.2,
          subMatch (jsToLower kw) (jsToLower (title ++ " " ++ content)) = false) →
        e.numbers.any (fun num => subMatch "magnitude" num || subMatch "richter" num) = false →
        loc = none →
        keywordScore title content loc e = 0
        ∧ (performKeywordAnalysis title content loc e).potentialDisaster = false) := by
  intro t c loc e
  have hnn := keywordScore_nonneg t c loc e
  refine ⟨hnn, rfl, ?_, ?_, ?_, ?_⟩
  · show 0 ≤ mathMin (keywordScore t c loc e * 5) 95
    rw [mathMin_eq_min]
    exact le_min (by linarith) (by norm_num)
  · show mathMin (keywordScore t c loc e * 5) 95 ≤ 95
    rw [mathMin_eq_min]
    exact min_le_right _ _
  · show decide (15 ≤ keywordScore t c loc e) = true ↔ _
    exact decide_eq_true_iff
  · intro hkw hmag hloc
    have hz : keywordScore t c loc e = 0 := by
      simp [keywordScore, scanCategories_eq_zero _ _ hkw, hmag, hloc]
    refine ⟨hz, ?_⟩
    show decide (15 ≤ keywordScore t c loc e) = false
    rw [hz]
    exact decide_eq_false (by norm_num)

/-- Witness for C8: empty title and body match nothing, giving score 0. -/
theorem prefilter_score_properties_witness :
    0 ≤ keywordScore "" "" none ⟨[], [], [], []⟩
  ∧ keywordScore "" "" none ⟨[], [], [], []⟩ = 0
  ∧ (performKeywordAnalysis "" "" none ⟨[], [], [], []⟩).potentialDisaster = false := by
  obtain ⟨h1, _, _, _, _, h6⟩ := prefilter_score_properties "" "" none ⟨[], [], [], []⟩
  obtain ⟨hz, hw⟩ := h6 (by decide) (by decide) rfl
  exact ⟨h1, hz, hw⟩

end SmartEAS
